import Mathlib

/-!
Verification of the coordination core of `run_dqn.py` (asynchronous one-step
Q-learning trainer).  The Python source is shallowly embedded: numeric values
are modelled over `ℚ`, the per-worker training loop becomes explicit state
passing, and the external collaborators (environment, approximator, random
number generator) become oracle functions supplied as parameters.
-/

namespace AsyncDQN

/-- Embedding of `update_epsilon` (run_dqn.py, lines 60-69):
`eps = FLAGS.eps_start - (frames / eps_steps) * (FLAGS.eps_start - eps_min)`,
returning `eps` when `eps > eps_min`, else `eps_min`. -/
def update_epsilon (eps_start frames eps_steps eps_min : ℚ) : ℚ :=
  let eps := eps_start - (frames / eps_steps) * (eps_start - eps_min)
  if eps > eps_min then eps else eps_min

/-- Embedding of `np.clip(reward, -1, 1)` (run_dqn.py, line 196):
`min(a_max, max(a_min, a))`. -/
def clip1 (r : ℚ) : ℚ := min 1 (max (-1) r)

/-- Embedding of `np.argmax` over a vector of action values: index of the
first maximum (ties resolved by lowest index). -/
def argmaxIdx (l : List ℚ) : ℕ :=
  (l.enum.foldl (fun best p => if p.2 > best.1 then (p.2, p.1) else best)
    (l.headD 0, 0)).2

/-- Maximum of a list of rationals (`np.max`), 0 on the empty list. -/
def listMax : List ℚ → ℚ
  | [] => 0
  | x :: xs => xs.foldl max x

/-- Oracles standing for the external collaborators consumed by the training
loop of `train_async_dqn`: the environment (`env.step`, `env.reset_random`),
the approximator's per-action value heads (`agent.predict_rewards` and the
target network's per-action values), and the random number generator
(`random.random()` / `random.randrange`, indexed by the frame at which the
draw happens).  The per-worker loop is deterministic given these oracles. -/
structure Oracles where
  envStep : ℕ → ℕ → ℕ × ℚ × Bool
  envReset : ℕ → ℕ
  targetValues : ℕ → List ℚ
  predict_rewards : ℕ → List ℚ
  randFloat : ℕ → ℚ
  randAction : ℕ → ℕ

/-- Modelled from the spec: `agent.predict_target` lives in
`asyncrl/agent.py`, which is not part of the sources here; per the spec the
stored return uses "`gamma * max_a predictTarget(next_state)`", so
`predict_target` returns the maximal target-network value of the state. -/
def predict_target (O : Oracles) (screen : ℕ) : ℚ :=
  listMax (O.targetValues screen)

/-- The mutable per-worker state threaded through the training loop of
`train_async_dqn` (run_dqn.py, lines 177-206): current screen, terminal flag,
shared frame counter, the epsilon threshold variable, and the three batch
lists of the accumulation window. -/
structure LoopState where
  screen : ℕ
  terminal : Bool
  frame : ℕ
  epsilon : ℚ
  batch_states : List ℕ
  batch_actions : List ℕ
  batch_rewards : List ℚ
  deriving Repr, DecidableEq

/-- Epsilon-greedy action choice (run_dqn.py, lines 188-193): if
`random.random() < epsilon` pick `random.randrange(action_size)`, else
`np.argmax(agent.predict_rewards(screen))`. -/
def chooseAction (O : Oracles) (frame : ℕ) (epsilon : ℚ) (screen : ℕ) : ℕ :=
  if O.randFloat frame < epsilon then O.randAction frame
  else argmaxIdx (O.predict_rewards screen)

/-- One iteration of the batch-accumulation loop body
(run_dqn.py, lines 184-201): increment the shared frame counter, append the
current screen, choose an action epsilon-greedily, step the environment,
clip the reward to [-1, 1], add the discounted bootstrap term
`gamma * predict_target (next screen)` when the step is non-terminal, and
append the action and stored reward. -/
def batchStep (O : Oracles) (gamma : ℚ) (s : LoopState) : LoopState :=
  let frame' := s.frame + 1
  let a := chooseAction O frame' s.epsilon s.screen
  let step := O.envStep s.screen a
  let screen' := step.1
  let clipped := clip1 step.2.1
  let term' := step.2.2
  let reward := if term' then clipped
                else clipped + gamma * predict_target O screen'
  { screen := screen'
    terminal := term'
    frame := frame'
    epsilon := s.epsilon
    batch_states := s.batch_states ++ [s.screen]
    batch_actions := s.batch_actions ++ [a]
    batch_rewards := s.batch_rewards ++ [reward] }

theorem batchStep_states_len (O : Oracles) (gamma : ℚ) (s : LoopState) :
    (batchStep O gamma s).batch_states.length = s.batch_states.length + 1 := by
  simp [batchStep]

/-- The batch-accumulation loop (run_dqn.py, line 183):
`while not terminal and len(batch_states) < FLAGS.tmax:` run the body. -/
def batchLoop (O : Oracles) (gamma : ℚ) (tmax : ℕ) (s : LoopState) : LoopState :=
  if _h : s.terminal = false ∧ s.batch_states.length < tmax then
    batchLoop O gamma tmax (batchStep O gamma s)
  else s
termination_by tmax - s.batch_states.length
decreasing_by
  rw [batchStep_states_len]
  omega

/-- The batch of states/actions/rewards handed to
`agent.train(np.vstack(batch_states), batch_actions, batch_rewards)`
(run_dqn.py, line 203). -/
structure SubmittedBatch where
  states : List ℕ
  actions : List ℕ
  rewards : List ℚ
  deriving Repr, DecidableEq

/-- One iteration of the outer training loop of `train_async_dqn`
(run_dqn.py, lines 178-206): start fresh batch lists, reset the environment
when the previous window ended terminal, run the batch-accumulation loop,
submit the accumulated batch to `agent.train`, and recompute `epsilon` via
`update_epsilon(agent.frame, FLAGS.eps_steps, eps_min)`. -/
def outerIteration (O : Oracles) (gamma : ℚ) (tmax : ℕ)
    (eps_start eps_steps eps_min : ℚ) (s : LoopState) :
    LoopState × SubmittedBatch :=
  let s0 : LoopState :=
    { s with batch_states := [], batch_actions := [], batch_rewards := [] }
  let s1 : LoopState :=
    if s0.terminal then
      { s0 with terminal := false, screen := O.envReset s0.frame }
    else s0
  let sf := batchLoop O gamma tmax s1
  let batch : SubmittedBatch :=
    { states := sf.batch_states
      actions := sf.batch_actions
      rewards := sf.batch_rewards }
  ({ sf with
      epsilon := update_epsilon eps_start (sf.frame : ℚ) eps_steps eps_min },
    batch)

/-- Embedding of the checkpoint/evaluation guard in `train_async_dqn`
(run_dqn.py, lines 208 and 212): the saver/evaluator block runs iff
`thread_idx == 0` and `agent.frame - last_logging >= FLAGS.log_interval`
and `terminal`. -/
def checkpointFires (thread_idx : ℕ) (frame last_logging log_interval : ℤ)
    (terminal : Bool) : Bool :=
  if thread_idx = 0 then
    decide (log_interval ≤ frame - last_logging) && terminal
  else false

/-- Outcomes of the startup restore logic of `run`. -/
inductive StartupOutcome
  | coldStart
  | restored
  | fatalError
  deriving Repr, DecidableEq

/-- Embedding of the startup restore logic of `run` (run_dqn.py, lines
256-262): `ckpt = tf.train.latest_checkpoint(FLAGS.logdir)`; only when
`ckpt is not None` is `saver.restore` attempted (an exception raised there is
uncaught and kills the run); when no checkpoint is found the run continues
with the freshly initialised variables.  `latest` is the checkpoint found
(if any); `restoreRaises` says whether the external `saver.restore` call
raises. -/
def startupRestore (latest : Option ℕ) (restoreRaises : Bool) :
    StartupOutcome :=
  match latest with
  | none => StartupOutcome.coldStart
  | some _ =>
    if restoreRaises then StartupOutcome.fatalError
    else StartupOutcome.restored

/-- Modelled from the spec: `agent.frame_increment` lives in
`asyncrl/agent.py`, which is not part of the sources here; per the spec the
frame counter "must use an atomic or lock-protected increment" with each
caller observing the post-increment value.  An atomic increment on counter
value `c` yields new counter `c + 1` and observed value `c + 1`. -/
def frame_increment (c : ℕ) : ℕ × ℕ := (c + 1, c + 1)

/-- A history of `k` atomic `frame_increment` calls.  Because each increment
is atomic, any concurrent execution from any number of threads linearises to
some sequence of `k` increments; this function runs that sequence from
counter value `c`, returning the final counter value and the list of
post-increment values observed by the callers in linearisation order. -/
def runIncrements : ℕ → ℕ → ℕ × List ℕ
  | 0, c => (c, [])
  | Nat.succ k, c =>
    let r := frame_increment c
    let rest := runIncrements k r.1
    (rest.1, r.2 :: rest.2)

/-! ### Helper lemmas about the batch-accumulation loop -/

theorem batchLoop_eq (O : Oracles) (gamma : ℚ) (tmax : ℕ) (s : LoopState) :
    batchLoop O gamma tmax s =
      if s.terminal = false ∧ s.batch_states.length < tmax then
        batchLoop O gamma tmax (batchStep O gamma s)
      else s := by
  conv_lhs => rw [batchLoop]
  rw [dite_eq_ite]

theorem batchLoop_invariant (O : Oracles) (gamma : ℚ) (tmax : ℕ)
    (P : LoopState → Prop)
    (hstep : ∀ s, s.terminal = false → s.batch_states.length < tmax →
      P s → P (batchStep O gamma s)) :
    ∀ s, P s → P (batchLoop O gamma tmax s) := by
  intro s
  induction s using batchLoop.induct O gamma tmax with
  | case1 s h ih =>
    intro hP
    rw [batchLoop_eq, if_pos h]
    exact ih (hstep s h.1 h.2 hP)
  | case2 s h =>
    intro hP
    rw [batchLoop_eq, if_neg h]
    exact hP

theorem batchLoop_guard_false (O : Oracles) (gamma : ℚ) (tmax : ℕ)
    (s : LoopState) :
    ¬((batchLoop O gamma tmax s).terminal = false ∧
      (batchLoop O gamma tmax s).batch_states.length < tmax) := by
  induction s using batchLoop.induct O gamma tmax with
  | case1 s h ih =>
    rw [batchLoop_eq, if_pos h]
    exact ih
  | case2 s h =>
    rw [batchLoop_eq, if_neg h]
    exact h

theorem batchLoop_len_mono (O : Oracles) (gamma : ℚ) (tmax : ℕ)
    (s : LoopState) :
    s.batch_states.length ≤ (batchLoop O gamma tmax s).batch_states.length := by
  induction s using batchLoop.induct O gamma tmax with
  | case1 s h ih =>
    rw [batchLoop_eq, if_pos h]
    have hl := batchStep_states_len O gamma s
    omega
  | case2 s h =>
    rw [batchLoop_eq, if_neg h]

theorem batchLoop_len_le (O : Oracles) (gamma : ℚ) (tmax : ℕ) (s : LoopState)
    (h : s.batch_states.length ≤ tmax) :
    (batchLoop O gamma tmax s).batch_states.length ≤ tmax :=
  batchLoop_invariant O gamma tmax (fun t => t.batch_states.length ≤ tmax)
    (fun t _ hlt _ => by dsimp only; rw [batchStep_states_len]; omega) s h

theorem batchStep_epsilon (O : Oracles) (gamma : ℚ) (s : LoopState) :
    (batchStep O gamma s).epsilon = s.epsilon := rfl

theorem batchLoop_epsilon (O : Oracles) (gamma : ℚ) (tmax : ℕ) (s : LoopState) :
    (batchLoop O gamma tmax s).epsilon = s.epsilon :=
  batchLoop_invariant O gamma tmax (fun t => t.epsilon = s.epsilon)
    (fun t _ _ hP => by dsimp only; rw [batchStep_epsilon]; exact hP) s rfl

theorem batchStep_actions_len (O : Oracles) (gamma : ℚ) (s : LoopState) :
    (batchStep O gamma s).batch_actions.length = s.batch_actions.length + 1 := by
  simp [batchStep]

theorem batchStep_rewards_len (O : Oracles) (gamma : ℚ) (s : LoopState) :
    (batchStep O gamma s).batch_rewards.length = s.batch_rewards.length + 1 := by
  simp [batchStep]

theorem batchLoop_balanced (O : Oracles) (gamma : ℚ) (tmax : ℕ) (s : LoopState)
    (h : s.batch_states.length = s.batch_actions.length ∧
      s.batch_actions.length = s.batch_rewards.length) :
    (batchLoop O gamma tmax s).batch_states.length =
      (batchLoop O gamma tmax s).batch_actions.length ∧
    (batchLoop O gamma tmax s).batch_actions.length =
      (batchLoop O gamma tmax s).batch_rewards.length :=
  batchLoop_invariant O gamma tmax
    (fun t => t.batch_states.length = t.batch_actions.length ∧
      t.batch_actions.length = t.batch_rewards.length)
    (fun t _ _ hP => by
      dsimp only
      rw [batchStep_states_len, batchStep_actions_len, batchStep_rewards_len]
      omega) s h

/-- The stored return appended by one iteration of the batch loop
(run_dqn.py, lines 195-200). -/
def storedReward (O : Oracles) (gamma : ℚ) (s : LoopState) : ℚ :=
  if (O.envStep s.screen (chooseAction O (s.frame + 1) s.epsilon s.screen)).2.2 then
    clip1 (O.envStep s.screen (chooseAction O (s.frame + 1) s.epsilon s.screen)).2.1
  else
    clip1 (O.envStep s.screen (chooseAction O (s.frame + 1) s.epsilon s.screen)).2.1 +
      gamma * predict_target O
        (O.envStep s.screen (chooseAction O (s.frame + 1) s.epsilon s.screen)).1

theorem batchStep_rewards (O : Oracles) (gamma : ℚ) (s : LoopState) :
    (batchStep O gamma s).batch_rewards =
      s.batch_rewards ++ [storedReward O gamma s] := rfl

theorem clip1_bounds (r : ℚ) : -1 ≤ clip1 r ∧ clip1 r ≤ 1 :=
  ⟨le_min (by norm_num) (le_max_left _ _), min_le_left _ _⟩

theorem storedReward_bounded (O : Oracles) (gamma M : ℚ) (s : LoopState)
    (hg : 0 ≤ gamma) (hM : ∀ n, |predict_target O n| ≤ M) :
    -(1 + gamma * M) ≤ storedReward O gamma s ∧
      storedReward O gamma s ≤ 1 + gamma * M := by
  have hM0 : 0 ≤ M := le_trans (abs_nonneg _) (hM 0)
  unfold storedReward
  set stp := O.envStep s.screen (chooseAction O (s.frame + 1) s.epsilon s.screen)
  have hc := clip1_bounds stp.2.1
  split_ifs with hterm
  · constructor <;> nlinarith [hc.1, hc.2]
  · have hpt := abs_le.mp (hM stp.1)
    have h1 : gamma * predict_target O stp.1 ≤ gamma * M :=
      mul_le_mul_of_nonneg_left hpt.2 hg
    have h2 : gamma * (-M) ≤ gamma * predict_target O stp.1 :=
      mul_le_mul_of_nonneg_left hpt.1 hg
    constructor <;> nlinarith [hc.1, hc.2]

theorem runIncrements_eq (k c : ℕ) :
    runIncrements k c = (c + k, List.range' (c + 1) k) := by
  induction k generalizing c with
  | zero => rfl
  | succ n ih =>
    simp only [runIncrements, frame_increment, ih, List.range'_succ, Prod.mk.injEq]
    exact ⟨by omega, trivial⟩

theorem batchLoop_fresh (O : Oracles) (gamma : ℚ) (tmax : ℕ) (s : LoopState)
    (htmax : 1 ≤ tmax) (hterm : s.terminal = false)
    (hst : s.batch_states = []) (hac : s.batch_actions = [])
    (hre : s.batch_rewards = []) :
    ((batchLoop O gamma tmax s).batch_states.length =
       (batchLoop O gamma tmax s).batch_actions.length ∧
     (batchLoop O gamma tmax s).batch_actions.length =
       (batchLoop O gamma tmax s).batch_rewards.length) ∧
    1 ≤ (batchLoop O gamma tmax s).batch_states.length ∧
    (batchLoop O gamma tmax s).batch_states.length ≤ tmax := by
  refine ⟨batchLoop_balanced O gamma tmax s (by rw [hst, hac, hre]; exact ⟨rfl, rfl⟩),
    ?_, batchLoop_len_le O gamma tmax s (by simp [hst])⟩
  have hg : s.terminal = false ∧ s.batch_states.length < tmax :=
    ⟨hterm, by rw [hst]; simpa using htmax⟩
  rw [batchLoop_eq, if_pos hg]
  have h1 := batchLoop_len_mono O gamma tmax (batchStep O gamma s)
  have h2 := batchStep_states_len O gamma s
  omega

/-! ### Concrete sample inputs used by counterexamples and witnesses -/

/-- A concrete oracle family: the environment never terminates, always pays
raw reward 0, and the target network values every state at 10. -/
def bigTargetOracles : Oracles where
  envStep := fun _ _ => (1, 0, false)
  envReset := fun _ => 0
  targetValues := fun _ => [10]
  predict_rewards := fun _ => [0]
  randFloat := fun _ => 1/2
  randAction := fun _ => 0

/-- The worker state at the start of a fresh accumulation window. -/
def startState : LoopState :=
  { screen := 0, terminal := false, frame := 0, epsilon := 0,
    batch_states := [], batch_actions := [], batch_rewards := [] }

/-! ### Claims -/

/-- Claim C1: for every environment step taken during batch accumulation,
the value appended to the segment's rewards is the clipped reward plus
`gamma` times the maximal target-network value of the next state when the
resulting state is non-terminal, and exactly the clipped reward when the
resulting state is terminal. -/
theorem stored_return_bootstrap (O : Oracles) (gamma : ℚ) (s : LoopState) :
    (batchStep O gamma s).batch_rewards =
      s.batch_rewards ++
        [if (O.envStep s.screen
              (chooseAction O (s.frame + 1) s.epsilon s.screen)).2.2 then
            clip1 (O.envStep s.screen
              (chooseAction O (s.frame + 1) s.epsilon s.screen)).2.1
          else
            clip1 (O.envStep s.screen
              (chooseAction O (s.frame + 1) s.epsilon s.screen)).2.1 +
              gamma * listMax (O.targetValues
                (O.envStep s.screen
                  (chooseAction O (s.frame + 1) s.epsilon s.screen)).1)] := rfl

/-- Claim C2 counterexample: with `gamma = 0.99`, a raw reward of 0 on a
non-terminal step, and a target-network prediction of 10 for the next state,
the single stored reward submitted at the end of the window is 9.9, which
lies outside [-1, 1]. -/
theorem stored_reward_exceeds_unit :
    (batchLoop bigTargetOracles (99/100) 1 startState).batch_rewards =
      [99/10] ∧ ¬((99/10 : ℚ) ≤ 1) := by
  constructor
  · rw [batchLoop_eq, if_pos (by decide), batchLoop_eq, if_neg (by decide)]
    norm_num [batchStep, bigTargetOracles, startState, chooseAction, argmaxIdx,
      clip1, predict_target, listMax, min_def, max_def]
  · norm_num

/-- Claim C2 amended: the clipped raw-reward component of every stored
reward is in [-1, 1], but non-terminal steps add the bootstrap term
`gamma * predict_target(next_state)`; hence, whenever `0 ≤ gamma` and the
magnitude of every target-network prediction is bounded by `M`, every
element of the segment's rewards at submission time lies in the closed
interval [-(1 + gamma*M), 1 + gamma*M] (and not, in general, in [-1, 1]). -/
theorem segment_rewards_bounded (O : Oracles) (gamma M : ℚ) (tmax : ℕ)
    (s : LoopState) (hg : 0 ≤ gamma) (hM : ∀ n, |predict_target O n| ≤ M)
    (hs : ∀ r ∈ s.batch_rewards, -(1 + gamma * M) ≤ r ∧ r ≤ 1 + gamma * M) :
    ∀ r ∈ (batchLoop O gamma tmax s).batch_rewards,
      -(1 + gamma * M) ≤ r ∧ r ≤ 1 + gamma * M := by
  refine batchLoop_invariant O gamma tmax
    (fun t => ∀ r ∈ t.batch_rewards, -(1 + gamma * M) ≤ r ∧ r ≤ 1 + gamma * M)
    ?_ s hs
  intro t _ _ hP r hr
  rw [batchStep_rewards] at hr
  rcases List.mem_append.mp hr with hmem | hmem
  · exact hP r hmem
  · rw [List.mem_singleton.mp hmem]
    exact storedReward_bounded O gamma M t hg hM

/-- Claim C2 amended, witness: the bound holds at the concrete sample
inputs of the counterexample (`gamma = 0.99`, predictions bounded by 10). -/
theorem segment_rewards_bounded_at_sample :
    (0 : ℚ) ≤ 99/100 ∧
      (∀ n, |predict_target bigTargetOracles n| ≤ 10) ∧
      ∀ r ∈ (batchLoop bigTargetOracles (99/100) 1 startState).batch_rewards,
        -(1 + (99/100) * 10) ≤ r ∧ r ≤ 1 + (99/100) * 10 :=
  ⟨by norm_num,
   fun n => by norm_num [predict_target, bigTargetOracles, listMax],
   segment_rewards_bounded bigTargetOracles (99/100) 10 1 startState
     (by norm_num)
     (fun n => by norm_num [predict_target, bigTargetOracles, listMax])
     (fun r hr => by simp [startState] at hr)⟩

/-- Claim C3: starting from a segment of length at most `tmax`, the batch
loop keeps the segment length at most `tmax`, its final state either is
terminal or has segment length exactly `tmax`, and the loop stops
immediately (triggering the training submission) exactly when the state is
terminal or the segment has reached length `tmax`. -/
theorem segment_capacity_and_flush (O : Oracles) (gamma : ℚ) (tmax : ℕ)
    (s : LoopState) (h : s.batch_states.length ≤ tmax) :
    (batchLoop O gamma tmax s).batch_states.length ≤ tmax ∧
    ((batchLoop O gamma tmax s).terminal = true ∨
      (batchLoop O gamma tmax s).batch_states.length = tmax) ∧
    (batchLoop O gamma tmax s = s ↔
      (s.terminal = true ∨ tmax ≤ s.batch_states.length)) := by
  have hle := batchLoop_len_le O gamma tmax s h
  refine ⟨hle, ?_, ?_⟩
  · rcases Bool.eq_false_or_eq_true (batchLoop O gamma tmax s).terminal
      with ht | ht
    · exact Or.inl ht
    · right
      have hnl : ¬(batchLoop O gamma tmax s).batch_states.length < tmax :=
        fun hlen => batchLoop_guard_false O gamma tmax s ⟨ht, hlen⟩
      omega
  · constructor
    · intro heq
      by_contra hng
      push_neg at hng
      have ht : s.terminal = false := by
        rcases Bool.eq_false_or_eq_true s.terminal with h' | h'
        · exact absurd h' hng.1
        · exact h'
      have hlen : s.batch_states.length < tmax := by
        have h2 := hng.2
        omega
      have hmono := batchLoop_len_mono O gamma tmax (batchStep O gamma s)
      have hstep := batchStep_states_len O gamma s
      rw [batchLoop_eq, if_pos ⟨ht, hlen⟩] at heq
      rw [heq] at hmono
      omega
    · intro hor
      have hng : ¬(s.terminal = false ∧ s.batch_states.length < tmax) := by
        intro hg
        rcases hor with h' | h'
        · simp [h'] at hg
        · exact absurd hg.2 (not_lt.mpr h')
      rw [batchLoop_eq, if_neg hng]

/-- Claim C3, witness: concrete instance with `tmax = 2` starting from the
fresh window state. -/
theorem segment_capacity_and_flush_at_sample :
    startState.batch_states.length ≤ 2 ∧
      ((batchLoop bigTargetOracles 0 2 startState).batch_states.length ≤ 2 ∧
       ((batchLoop bigTargetOracles 0 2 startState).terminal = true ∨
         (batchLoop bigTargetOracles 0 2 startState).batch_states.length = 2) ∧
       (batchLoop bigTargetOracles 0 2 startState = startState ↔
         (startState.terminal = true ∨ 2 ≤ startState.batch_states.length))) :=
  ⟨by decide, segment_capacity_and_flush bigTargetOracles 0 2 startState
    (by decide)⟩

/-- Claim C4: the epsilon schedule is the linear interpolation
`eps_start - (frame / eps_steps) * (eps_start - eps_min)` clamped below at
`eps_min`: for every frame at or past `eps_steps` the value is exactly
`eps_min`, and with `eps_steps = 10`, `eps_start = 1.0`, `eps_min = 0.1`
the values at frames 5, 0 and 20 are exactly 0.55, 1.0 and 0.1. -/
theorem epsilon_schedule_floor_and_values (eps_start eps_min eps_steps f : ℚ)
    (h1 : eps_min ≤ eps_start) (h2 : 0 < eps_steps) (hf : eps_steps ≤ f) :
    update_epsilon eps_start f eps_steps eps_min = eps_min ∧
    update_epsilon 1 5 10 (1/10) = 11/20 ∧
    update_epsilon 1 0 10 (1/10) = 1 ∧
    update_epsilon 1 20 10 (1/10) = 1/10 := by
  refine ⟨?_, by norm_num [update_epsilon], by norm_num [update_epsilon],
    by norm_num [update_epsilon]⟩
  have hd : 0 ≤ eps_start - eps_min := by linarith
  have hq : 1 ≤ f / eps_steps := (one_le_div h2).mpr hf
  have hmul : eps_start - eps_min ≤ f / eps_steps * (eps_start - eps_min) :=
    le_mul_of_one_le_left hd hq
  simp only [update_epsilon]
  rw [if_neg (not_lt.mpr (by linarith))]

/-- Claim C4, witness: the floor is reached at frame 20 with the sample
parameters. -/
theorem epsilon_schedule_floor_at_sample :
    (1/10 : ℚ) ≤ 1 ∧ (0 : ℚ) < 10 ∧ (10 : ℚ) ≤ 20 ∧
      (update_epsilon 1 20 10 (1/10) = 1/10 ∧
       update_epsilon 1 5 10 (1/10) = 11/20 ∧
       update_epsilon 1 0 10 (1/10) = 1 ∧
       update_epsilon 1 20 10 (1/10) = 1/10) :=
  ⟨by norm_num, by norm_num, by norm_num,
    epsilon_schedule_floor_and_values 1 (1/10) 10 20 (by norm_num)
      (by norm_num) (by norm_num)⟩

/-- Claim C5: for every frame `f ≥ 0`, with `eps_min ≤ eps_start` and
`eps_steps > 0`, the epsilon value returned satisfies
`eps_min ≤ value ≤ eps_start`. -/
theorem epsilon_schedule_range (eps_start eps_min eps_steps f : ℚ)
    (h1 : eps_min ≤ eps_start) (h2 : 0 < eps_steps) (hf : 0 ≤ f) :
    eps_min ≤ update_epsilon eps_start f eps_steps eps_min ∧
      update_epsilon eps_start f eps_steps eps_min ≤ eps_start := by
  have hq : 0 ≤ f / eps_steps := div_nonneg hf h2.le
  have hd : 0 ≤ eps_start - eps_min := by linarith
  have hmul : 0 ≤ f / eps_steps * (eps_start - eps_min) := mul_nonneg hq hd
  simp only [update_epsilon]
  split_ifs with hgt
  · exact ⟨le_of_lt hgt, by linarith⟩
  · exact ⟨le_refl _, h1⟩

/-- Claim C5, witness: the bounds hold at frame 5 with the sample
parameters. -/
theorem epsilon_schedule_range_at_sample :
    (1/10 : ℚ) ≤ 1 ∧ (0 : ℚ) < 10 ∧ (0 : ℚ) ≤ 5 ∧
      ((1/10 : ℚ) ≤ update_epsilon 1 5 10 (1/10) ∧
        update_epsilon 1 5 10 (1/10) ≤ 1) :=
  ⟨by norm_num, by norm_num, by norm_num,
    epsilon_schedule_range 1 (1/10) 10 5 (by norm_num) (by norm_num)
      (by norm_num)⟩

/-- Claim C6 counterexample: on the designated worker (thread 0), at an
episode boundary, with the frame delta exactly equal to the logging
interval, the checkpoint save fires although the delta does not strictly
exceed the interval. -/
theorem checkpoint_fires_at_exact_interval :
    checkpointFires 0 5 0 5 true = true ∧ ¬((5 : ℤ) - 0 > 5) :=
  ⟨by decide, by decide⟩

/-- Claim C6 amended: the checkpoint save (and the accompanying
evaluation/metrics emission, which lives in the same guarded block) fires
iff the worker has thread index 0, the environment has just reported
terminal, and the current frame count minus the frame count of the last
save is at least (not strictly greater than) the logging interval. -/
theorem checkpoint_guard_iff (thread_idx : ℕ)
    (frame last_logging log_interval : ℤ) (terminal : Bool) :
    checkpointFires thread_idx frame last_logging log_interval terminal
        = true ↔
      thread_idx = 0 ∧ terminal = true ∧
        log_interval ≤ frame - last_logging := by
  unfold checkpointFires
  split_ifs with h
  · simp only [h, Bool.and_eq_true, decide_eq_true_eq, true_and]
    tauto
  · simp [h]

/-- Claim C7 counterexample: when no checkpoint is found in the log
directory, the run silently proceeds with the freshly initialised model
(cold start) instead of terminating fatally, and there is no configuration
gate involved. -/
theorem missing_checkpoint_cold_start :
    startupRestore none true = StartupOutcome.coldStart ∧
      startupRestore none false = StartupOutcome.coldStart ∧
      StartupOutcome.coldStart ≠ StartupOutcome.fatalError :=
  ⟨rfl, rfl, by decide⟩

/-- Claim C7 amended: at startup, when no checkpoint is found the run
silently falls back to cold-start training (there is no configuration flag
guarding this); only when a checkpoint exists and the restore call raises
does the run terminate fatally (by uncaught exception), and a successful
restore resumes from the checkpoint. -/
theorem startup_restore_cases (c : ℕ) (b : Bool) :
    startupRestore none b = StartupOutcome.coldStart ∧
      startupRestore (some c) true = StartupOutcome.fatalError ∧
      startupRestore (some c) false = StartupOutcome.restored :=
  ⟨rfl, rfl, rfl⟩

/-- Claim C8: any concurrent execution of `k` atomic frame-counter
increments linearises to a sequence of `k` increments; the final counter
value is exactly `k` greater than the initial value, and no two callers
observe the same post-increment value. -/
theorem frame_counter_increments_exact (k c : ℕ) :
    (runIncrements k c).1 = c + k ∧ (runIncrements k c).2.Nodup := by
  rw [runIncrements_eq]
  exact ⟨rfl, List.nodup_range' _ _⟩

/-- Claim C9: for every batch-accumulation window with `tmax ≥ 1`, the
three lists submitted to `agent.train` have equal length, and that length
is at least 1 and at most `tmax`; in particular the training step is never
invoked with empty batches. -/
theorem submitted_batch_aligned_nonempty (O : Oracles) (gamma : ℚ)
    (tmax : ℕ) (eps_start eps_steps eps_min : ℚ) (s : LoopState)
    (htmax : 1 ≤ tmax) :
    (outerIteration O gamma tmax eps_start eps_steps eps_min s).2.states.length
        = (outerIteration O gamma tmax eps_start eps_steps
            eps_min s).2.actions.length ∧
    (outerIteration O gamma tmax eps_start eps_steps
        eps_min s).2.actions.length
        = (outerIteration O gamma tmax eps_start eps_steps
            eps_min s).2.rewards.length ∧
    1 ≤ (outerIteration O gamma tmax eps_start eps_steps
          eps_min s).2.states.length ∧
    (outerIteration O gamma tmax eps_start eps_steps
        eps_min s).2.states.length ≤ tmax := by
  simp only [outerIteration]
  split_ifs with hterm
  · have h := batchLoop_fresh O gamma tmax
      { s with
          terminal := false
          screen := O.envReset s.frame
          batch_states := []
          batch_actions := []
          batch_rewards := [] }
      htmax rfl rfl rfl rfl
    exact ⟨h.1.1, h.1.2, h.2.1, h.2.2⟩
  · have hterm' : s.terminal = false := by simpa using hterm
    have h := batchLoop_fresh O gamma tmax
      { s with batch_states := [], batch_actions := [], batch_rewards := [] }
      htmax hterm' rfl rfl rfl
    exact ⟨h.1.1, h.1.2, h.2.1, h.2.2⟩

/-- Claim C9, witness: concrete window with `tmax = 1` from the fresh
start state. -/
theorem submitted_batch_aligned_nonempty_at_sample :
    1 ≤ 1 ∧
      ((outerIteration bigTargetOracles 0 1 1 1 0 startState).2.states.length
          = (outerIteration bigTargetOracles 0 1 1 1 0
              startState).2.actions.length ∧
        (outerIteration bigTargetOracles 0 1 1 1 0
            startState).2.actions.length
          = (outerIteration bigTargetOracles 0 1 1 1 0
              startState).2.rewards.length ∧
        1 ≤ (outerIteration bigTargetOracles 0 1 1 1 0
              startState).2.states.length ∧
        (outerIteration bigTargetOracles 0 1 1 1 0
            startState).2.states.length ≤ 1) :=
  ⟨by decide,
    submitted_batch_aligned_nonempty bigTargetOracles 0 1 1 1 0 startState
      (by decide)⟩

/-- Claim C10: within a single batch-accumulation window the epsilon
threshold compared against the random draw is one constant value (neither
the loop body nor the loop itself changes the `epsilon` component of the
state), and an outer-loop iteration leaves `epsilon` equal to
`update_epsilon` recomputed from the frame counter reached right after the
training submission. -/
theorem epsilon_constant_within_window (O : Oracles) (gamma : ℚ) (tmax : ℕ)
    (eps_start eps_steps eps_min : ℚ) (s : LoopState) :
    (batchStep O gamma s).epsilon = s.epsilon ∧
    (batchLoop O gamma tmax s).epsilon = s.epsilon ∧
    (outerIteration O gamma tmax eps_start eps_steps eps_min s).1.epsilon =
      update_epsilon eps_start
        (((outerIteration O gamma tmax eps_start eps_steps
            eps_min s).1.frame : ℚ))
        eps_steps eps_min :=
  ⟨batchStep_epsilon O gamma s, batchLoop_epsilon O gamma tmax s, rfl⟩

end AsyncDQN
